import Mathlib

/-!
Verification of the gate-pass Flask backend (`src/app.py`).

The server keeps gate-pass records in a Firestore collection. We model a
record as an association list from field names to string values (a JSON
object whose values we take to be strings), and the collection as an
association list from document ids to records. Firestore `set` overwrites
a whole document, `update` merges fields into an existing document; both
are modelled by `setA` on the association lists. Timestamps
(`datetime.now().isoformat()`) and generated uuids are passed in as
explicit oracle parameters.
-/

namespace GatePass

/-- Association-list lookup: the Python `dict` / Firestore document lookup. -/
def lookupA {α : Type} : List (String × α) → String → Option α
  | [], _ => none
  | (k', v) :: l, k => if k' = k then some v else lookupA l k

/-- Remove every binding of key `k`. -/
def eraseA {α : Type} : List (String × α) → String → List (String × α)
  | [], _ => []
  | (k', v) :: l, k => if k' = k then eraseA l k else (k', v) :: eraseA l k

/-- Set key `k` to value `v` (Python `d[k] = v` / Firestore field write). -/
def setA {α : Type} (l : List (String × α)) (k : String) (v : α) : List (String × α) :=
  (k, v) :: eraseA l k

/-- A gate-pass record: a JSON object with string fields. -/
abbrev Record := List (String × String)

/-- The Firestore collection `gate_pass_requests`: document id to record. -/
abbrev Store := List (String × Record)

def getField (r : Record) (k : String) : Option String := lookupA r k

def setField (r : Record) (k : String) (v : String) : Record := setA r k v

def lookupStore (s : Store) (id : String) : Option Record := lookupA s id

def setStore (s : Store) (id : String) (r : Record) : Store := setA s id r

/-- Firestore `doc_ref.update(update_data)`: merge the given fields into
the record, leaving all other fields unchanged. -/
def applyUpdate (r : Record) (upd : List (String × String)) : Record :=
  upd.foldl (fun acc p => setField acc p.1 p.2) r

/-! ## `submit_gate_pass` (`src/app.py`, lines 133-173) -/

/-- The ten required submission fields, in the order the code checks them. -/
def requiredFields : List String :=
  ["pass_type", "prn_number", "department", "name",
   "wing", "room_number", "reason", "phone_no",
   "proposed_visit", "outing_dates"]

/-- The `data.update({...})` performed on a valid submission: server-side
timestamp, status `Pending`, created_at and updated_at stamped over
whatever the client sent. -/
def stampSubmission (data : Record) (tNow cNow uNow : String) : Record :=
  setField (setField (setField (setField data "timestamp" tNow) "status" "Pending")
    "created_at" cNow) "updated_at" uNow

/-- Outcome of `submit_gate_pass`, carrying the JSON payload data. -/
inductive SubmitResult where
  | created (id : String) (passType : String)
  | noData
  | missingField (f : String)
  | invalidPassType
deriving DecidableEq, Repr

/-- HTTP status code of each `submit_gate_pass` outcome. -/
def SubmitResult.code : SubmitResult → Nat
  | .created _ _ => 201
  | .noData => 400
  | .missingField _ => 400
  | .invalidPassType => 400

/-- `submit_gate_pass`: validate presence of the ten required fields and
the pass_type enum, then stamp server fields and store under a fresh
uuid. Returns the HTTP outcome and the new store. -/
def submit_gate_pass (store : Store) (data : Record)
    (freshId tNow cNow uNow : String) : SubmitResult × Store :=
  if data.isEmpty then (.noData, store)
  else
    match requiredFields.find? (fun f => (getField data f).isNone) with
    | some f => (.missingField f, store)
    | none =>
      if getField data "pass_type" = some "local" ∨ getField data "pass_type" = some "leave" then
        let stamped := stampSubmission data tNow cNow uNow
        ((.created freshId ((getField stamped "pass_type").getD "")),
          setStore store freshId stamped)
      else (.invalidPassType, store)

/-- A submission body is valid when all ten required fields are present
and pass_type is `local` or `leave`. -/
def validBody (data : Record) : Bool :=
  requiredFields.all (fun f => (getField data f).isSome) &&
    (getField data "pass_type" == some "local" || getField data "pass_type" == some "leave")

/-! ## `update_gate_pass` (`src/app.py`, lines 218-254) -/

/-- Outcome of `update_gate_pass`. -/
inductive UpdateResult where
  | ok (message : String) (id : String) (updatedAt : String)
  | invalidStatus
  | notFound
deriving DecidableEq, Repr

/-- HTTP status code of each `update_gate_pass` outcome. -/
def UpdateResult.code : UpdateResult → Nat
  | .ok _ _ _ => 200
  | .invalidStatus => 400
  | .notFound => 404

/-- `update_gate_pass`: reject a status outside {Approved, Rejected} with
400 before looking at the store; 404 on an unknown id; otherwise merge
status, updated_at and (when Rejected) rejection_reason into the record.
`now` is the `updated_at` written to the store, `nowResp` the second
`datetime.now()` echoed in the response body. -/
def update_gate_pass (store : Store) (gatePassId : String) (data : Record)
    (now nowResp : String) : UpdateResult × Store :=
  let status := getField data "status"
  let reason := (getField data "reason").getD ""
  if status = some "Approved" ∨ status = some "Rejected" then
    match lookupStore store gatePassId with
    | none => (.notFound, store)
    | some r =>
      let statusVal := status.getD ""
      let updateData : Record :=
        [("status", statusVal), ("updated_at", now)] ++
          (if status = some "Rejected" then [("rejection_reason", reason)] else [])
      (.ok ("Gate Pass " ++ statusVal) gatePassId nowResp,
        setStore store gatePassId (applyUpdate r updateData))
  else (.invalidStatus, store)

/-! ## `check_authentication` (`src/app.py`, lines 70-92) -/

/-- The fixed process-wide shared secret (`SECRET_TOKEN` in `app.py`). -/
def SECRET_TOKEN : String := "default_secret_token"

/-- Python `s.split(sep)` for a single-character separator: splits at
every occurrence, keeping empty components. -/
def splitChars (sep : Char) : List Char → List Char → List String
  | [], acc => [String.mk acc.reverse]
  | c :: cs, acc =>
    if c = sep then String.mk acc.reverse :: splitChars sep cs []
    else splitChars sep cs (c :: acc)

/-- Python `s.split(' ')`. -/
def splitOnSpace (s : String) : List String := splitChars ' ' s.data []

/-- Python `s.startswith(pre)`. -/
def pyStartsWith (s pre : String) : Bool := pre.data.isPrefixOf s.data

/-- Python `not str(s).strip()`: true exactly when every character of `s`
is whitespace (in particular when `s` is empty). -/
def isBlank (s : String) : Bool := s.data.all (fun c => c.isWhitespace)

/-- Python `s.lower()`, character by character. -/
def lowerString (s : String) : String := String.mk (s.data.map Char.toLower)

/-- `auth_header.split(' ')[1]`: the second space-separated component of
the header (always present when the header starts with `Bearer `). -/
def bearerToken (h : String) : String := ((splitOnSpace h).get? 1).getD ""

/-- Outcome of the authentication middleware, carrying the diagnostic
payload of each 401 branch. -/
inductive AuthCheck where
  | allow
  | optionsOk
  | invalidHeader (receivedHeader : Option String)
  | wrongToken (receivedToken : String) (expectedToken : String)
deriving DecidableEq, Repr

/-- The `check_authentication` decorator: OPTIONS requests short-circuit
to 200; a missing or non-`Bearer ` header is a 401 echoing the header;
a token different from the secret is a 401 echoing both tokens. -/
def check_authentication (method : String) (authHeader : Option String) : AuthCheck :=
  if method = "OPTIONS" then .optionsOk
  else
    match authHeader with
    | none => .invalidHeader none
    | some h =>
      if pyStartsWith h "Bearer " then
        let token := bearerToken h
        if token = SECRET_TOKEN then .allow
        else .wrongToken token SECRET_TOKEN
      else .invalidHeader (some h)

/-- The `/update_gate_pass/<id>` route with its `@check_authentication`
decorator: the only store-mutating protected endpoint. Returns the HTTP
status code and the resulting store. -/
def update_gate_pass_route (method : String) (authHeader : Option String)
    (store : Store) (gatePassId : String) (data : Record) (now nowResp : String) :
    Nat × Store :=
  match check_authentication method authHeader with
  | .optionsOk => (200, store)
  | .invalidHeader _ => (401, store)
  | .wrongToken _ _ => (401, store)
  | .allow =>
    if method = "OPTIONS" then (200, store)
    else
      let (res, store2) := update_gate_pass store gatePassId data now nowResp
      (res.code, store2)

/-! ## `get_gate_pass_status` (`src/app.py`, lines 175-216) -/

/-- Outcome of `get_gate_pass_status`. -/
inductive PrnResult where
  | ok (passes : List Record)
  | invalidPrn
deriving DecidableEq, Repr

/-- HTTP status code of each `get_gate_pass_status` outcome. -/
def PrnResult.code : PrnResult → Nat
  | .ok _ => 200
  | .invalidPrn => 400

/-- Insert a record into a list kept in descending `timestamp` order
(the Firestore `order_by("timestamp", DESCENDING)` on the query). -/
def insertDescByTimestamp (r : Record) : List Record → List Record
  | [] => [r]
  | x :: xs =>
    if ((getField x "timestamp").getD "") ≤ ((getField r "timestamp").getD "")
    then r :: x :: xs
    else x :: insertDescByTimestamp r xs

/-- Sort records by `timestamp` descending. -/
def sortDescByTimestamp (l : List Record) : List Record :=
  l.foldr insertDescByTimestamp []

/-- `get_gate_pass_status`: 400 on an empty/whitespace PRN, otherwise the
records whose `prn_number` equals the PRN, each with its document id
attached, ordered by timestamp descending; an empty match list is still
a 200 with an empty array. -/
def get_gate_pass_status (store : Store) (prnNumber : String) : PrnResult :=
  if isBlank prnNumber then .invalidPrn
  else
    let matching := store.filter (fun p => getField p.2 "prn_number" == some prnNumber)
    let withIds := matching.map (fun p => setField p.2 "id" p.1)
    .ok (sortDescByTimestamp withIds)

/-! ## `get_statistics` (`src/app.py`, lines 385-421) -/

/-- One statistics bucket: {"all", "pending", "approved", "rejected"}. -/
structure StatBucket where
  all : Nat
  pending : Nat
  approved : Nat
  rejected : Nat
deriving DecidableEq, Repr

/-- The nested `stats` object: buckets for total, local and leave. -/
structure Stats where
  total : StatBucket
  localB : StatBucket
  leaveB : StatBucket
deriving DecidableEq, Repr

def initBucket : StatBucket := ⟨0, 0, 0, 0⟩

def initStats : Stats := ⟨initBucket, initBucket, initBucket⟩

/-- Count one record into a bucket: `all` always increments; the matching
status sub-counter increments only when the (lower-cased) status is one
of pending/approved/rejected. -/
def bumpBucket (b : StatBucket) (status : String) : StatBucket :=
  let b' : StatBucket := { b with all := b.all + 1 }
  if status = "pending" then { b' with pending := b'.pending + 1 }
  else if status = "approved" then { b' with approved := b'.approved + 1 }
  else if status = "rejected" then { b' with rejected := b'.rejected + 1 }
  else b'

/-- The loop body of `get_statistics`: records with pass_type outside
{local, leave} are ignored entirely. -/
def countRecord (s : Stats) (r : Record) : Stats :=
  let passType := (getField r "pass_type").getD "unknown"
  let status := lowerString ((getField r "status").getD "unknown")
  if passType = "local" then
    { s with localB := bumpBucket s.localB status, total := bumpBucket s.total status }
  else if passType = "leave" then
    { s with leaveB := bumpBucket s.leaveB status, total := bumpBucket s.total status }
  else s

/-- `get_statistics`: one pass over every stored record. -/
def get_statistics (records : List Record) : Stats :=
  records.foldl countRecord initStats

/-- The sanity conditions on one statistics bucket: every status
sub-count is at most the bucket's `all` count. -/
def bucketOk (b : StatBucket) : Prop :=
  b.pending ≤ b.all ∧ b.approved ≤ b.all ∧ b.rejected ≤ b.all

/-- The statistics invariant: total.all splits into local.all + leave.all
and every bucket is sane. -/
def statsOk (s : Stats) : Prop :=
  s.total.all = s.localB.all + s.leaveB.all ∧
    bucketOk s.total ∧ bucketOk s.localB ∧ bucketOk s.leaveB

/-! ## Operation traces (for the reachability invariant) -/

/-- One API operation that can touch the store: a submission (with the
uuid and the three `datetime.now()` results as oracle inputs) or a
status update. -/
inductive Op where
  | submit (data : Record) (freshId tNow cNow uNow : String)
  | update (gatePassId : String) (data : Record) (now nowResp : String)

/-- Apply one operation to the store, keeping only the store effect. -/
def stepOp (store : Store) : Op → Store
  | .submit data freshId tNow cNow uNow =>
      (submit_gate_pass store data freshId tNow cNow uNow).2
  | .update gatePassId data now nowResp =>
      (update_gate_pass store gatePassId data now nowResp).2

/-- Run a sequence of operations from the empty collection. -/
def runOps (ops : List Op) : Store := ops.foldl stepOp []

/-- A submission operation whose body does not itself smuggle in a
`rejection_reason` field; status updates are unrestricted. -/
def Op.cleanSubmit : Op → Bool
  | .submit data _ _ _ _ => getField data "rejection_reason" == none
  | .update _ _ _ _ => true

/-- The per-store form of the rejection-reason invariant: a Pending
record carries no rejection_reason, and a Rejected record always
carries one. -/
def reasonInv (s : Store) : Prop :=
  ∀ id r, lookupStore s id = some r →
    (getField r "status" = some "Pending" → getField r "rejection_reason" = none) ∧
    (getField r "status" = some "Rejected" → (getField r "rejection_reason").isSome = true)

/-! ## Concrete demonstration inputs -/

/-- A well-formed submission body (the example from the spec, §8). -/
def demoBody : Record :=
  [("pass_type", "local"), ("prn_number", "123"), ("department", "CS"),
   ("name", "A"), ("wing", "W1"), ("room_number", "101"), ("reason", "home"),
   ("phone_no", "999"), ("proposed_visit", "2024-01-01"), ("outing_dates", "2024-01-01")]

/-- A well-formed submission body that additionally tries to pre-set the
server-owned `status` field and carries an extra field of its own. -/
def dirtyBody : Record :=
  ("status", "Approved") :: ("extra_field", "x") :: demoBody

/-- Submit, reject, then re-approve the same record: the trace showing
that `rejection_reason` survives a later approval. -/
def rejectThenApproveTrace : List Op :=
  [.submit demoBody "id1" "t1" "t1" "t1",
   .update "id1" [("status", "Rejected"), ("reason", "r")] "t2" "t2",
   .update "id1" [("status", "Approved")] "t3" "t3"]

/-- The record left behind by `rejectThenApproveTrace`. -/
def rejectThenApproveRecord : Record :=
  (lookupStore (runOps rejectThenApproveTrace) "id1").getD []

/-- Submit then reject, with no smuggled fields. -/
def cleanTrace : List Op :=
  [.submit demoBody "id1" "t1" "t1" "t1",
   .update "id1" [("status", "Rejected")] "t2" "t2"]

/-- The record left behind by `cleanTrace`. -/
def cleanTraceRecord : Record :=
  (lookupStore (runOps cleanTrace) "id1").getD []

/-! ## Association-list lemmas -/

@[simp]
theorem lookupA_nil {α : Type} (k : String) : lookupA ([] : List (String × α)) k = none := rfl

@[simp]
theorem lookupA_cons {α : Type} (k' k : String) (v : α) (l : List (String × α)) :
    lookupA ((k', v) :: l) k = if k' = k then some v else lookupA l k := rfl

theorem lookupA_eraseA_ne {α : Type} (l : List (String × α)) (k k' : String) (h : k' ≠ k) :
    lookupA (eraseA l k) k' = lookupA l k' := by
  induction l with
  | nil => rfl
  | cons p t ih =>
    obtain ⟨pk, pv⟩ := p
    by_cases hpk : pk = k
    · subst hpk
      simp [eraseA, ih, Ne.symm h]
    · simp [eraseA, hpk, ih]

theorem lookupA_eraseA_self {α : Type} (l : List (String × α)) (k : String) :
    lookupA (eraseA l k) k = none := by
  induction l with
  | nil => rfl
  | cons p t ih =>
    obtain ⟨pk, pv⟩ := p
    by_cases hpk : pk = k
    · simp [eraseA, hpk, ih]
    · simp [eraseA, hpk, ih]

@[simp]
theorem lookupA_setA_self {α : Type} (l : List (String × α)) (k : String) (v : α) :
    lookupA (setA l k v) k = some v := by
  simp [setA]

theorem lookupA_setA_ne {α : Type} (l : List (String × α)) (k k' : String) (v : α)
    (h : k' ≠ k) : lookupA (setA l k v) k' = lookupA l k' := by
  simp [setA, Ne.symm h, lookupA_eraseA_ne l k k' h]

theorem getField_setField_self (r : Record) (k v : String) :
    getField (setField r k v) k = some v := lookupA_setA_self r k v

theorem getField_setField_ne (r : Record) (k k' v : String) (h : k' ≠ k) :
    getField (setField r k v) k' = getField r k' := lookupA_setA_ne r k k' v h

theorem lookupStore_setStore_self (s : Store) (id : String) (r : Record) :
    lookupStore (setStore s id r) id = some r := lookupA_setA_self s id r

theorem lookupStore_setStore_ne (s : Store) (id id' : String) (r : Record) (h : id' ≠ id) :
    lookupStore (setStore s id r) id' = lookupStore s id' := lookupA_setA_ne s id id' r h

/-- Any record found in `setStore s id r` is either the new record `r`
(at key `id`) or was already in `s`. -/
theorem lookupStore_setStore_cases (s : Store) (id : String) (r : Record)
    (id' : String) (r' : Record) (h : lookupStore (setStore s id r) id' = some r') :
    (id' = id ∧ r' = r) ∨ lookupStore s id' = some r' := by
  by_cases hid : id' = id
  · subst hid
    rw [lookupStore_setStore_self] at h
    exact Or.inl ⟨rfl, (Option.some.inj h).symm⟩
  · rw [lookupStore_setStore_ne s id id' r hid] at h
    exact Or.inr h

/-! ## `submit_gate_pass` lemmas -/

theorem getField_nil (k : String) : getField [] k = none := rfl

theorem validBody_iff (data : Record) :
    validBody data = true ↔
      (requiredFields.find? (fun f => (getField data f).isNone) = none ∧
        (getField data "pass_type" = some "local" ∨ getField data "pass_type" = some "leave")) := by
  simp [validBody, List.find?_eq_none, Option.isSome_iff_ne_none, Option.isNone_iff_eq_none]

theorem stampSubmission_status (data : Record) (t c u : String) :
    getField (stampSubmission data t c u) "status" = some "Pending" := by
  unfold stampSubmission
  rw [getField_setField_ne _ _ _ _ (by decide), getField_setField_ne _ _ _ _ (by decide),
    getField_setField_self]

theorem stampSubmission_timestamp (data : Record) (t c u : String) :
    getField (stampSubmission data t c u) "timestamp" = some t := by
  unfold stampSubmission
  rw [getField_setField_ne _ _ _ _ (by decide), getField_setField_ne _ _ _ _ (by decide),
    getField_setField_ne _ _ _ _ (by decide), getField_setField_self]

theorem stampSubmission_created_at (data : Record) (t c u : String) :
    getField (stampSubmission data t c u) "created_at" = some c := by
  unfold stampSubmission
  rw [getField_setField_ne _ _ _ _ (by decide), getField_setField_self]

theorem stampSubmission_updated_at (data : Record) (t c u : String) :
    getField (stampSubmission data t c u) "updated_at" = some u := by
  unfold stampSubmission
  rw [getField_setField_self]

theorem stampSubmission_other (data : Record) (t c u k : String)
    (h1 : k ≠ "timestamp") (h2 : k ≠ "status") (h3 : k ≠ "created_at")
    (h4 : k ≠ "updated_at") :
    getField (stampSubmission data t c u) k = getField data k := by
  unfold stampSubmission
  rw [getField_setField_ne _ _ _ _ h4, getField_setField_ne _ _ _ _ h3,
    getField_setField_ne _ _ _ _ h2, getField_setField_ne _ _ _ _ h1]

theorem submit_gate_pass_valid (store : Store) (data : Record)
    (freshId tNow cNow uNow : String) (hv : validBody data = true) :
    submit_gate_pass store data freshId tNow cNow uNow =
      (.created freshId ((getField data "pass_type").getD ""),
        setStore store freshId (stampSubmission data tNow cNow uNow)) := by
  obtain ⟨hfind, hpt⟩ := (validBody_iff data).1 hv
  have hne : data.isEmpty = false := by
    cases data with
    | nil =>
      rcases hpt with hpt | hpt <;> simp [getField_nil] at hpt
    | cons p t => rfl
  have hptv : getField (stampSubmission data tNow cNow uNow) "pass_type" =
      getField data "pass_type" :=
    stampSubmission_other data tNow cNow uNow "pass_type"
      (by decide) (by decide) (by decide) (by decide)
  unfold submit_gate_pass
  rw [hne, hfind]
  simp [hpt, hptv]

theorem submit_gate_pass_invalid (store : Store) (data : Record)
    (freshId tNow cNow uNow : String) (hv : validBody data = false) :
    (submit_gate_pass store data freshId tNow cNow uNow).1.code = 400 ∧
      (submit_gate_pass store data freshId tNow cNow uNow).2 = store := by
  unfold submit_gate_pass
  by_cases he : data.isEmpty = true
  · simp [he, SubmitResult.code]
  · rw [Bool.not_eq_true] at he
    rw [he]
    cases hfind : requiredFields.find? (fun f => (getField data f).isNone) with
    | some f => simp [SubmitResult.code]
    | none =>
      by_cases hpt : getField data "pass_type" = some "local" ∨
          getField data "pass_type" = some "leave"
      · have := (validBody_iff data).2 ⟨hfind, hpt⟩
        rw [hv] at this
        cases this
      · simp [hpt, SubmitResult.code]

/-- C1: for every submission request body, `submit_gate_pass` returns 201
with a new, previously-unused identifier and a stored record with status
"Pending" if and only if the body contains all ten required fields and
pass_type is "local" or "leave"; otherwise it returns 400 and creates no
record. (The freshly generated uuid is the oracle input `freshId`, assumed
unused as the code assumes of `uuid.uuid4()`.) -/
theorem submit_gate_pass_spec (store : Store) (data : Record)
    (freshId tNow cNow uNow : String) (hFresh : lookupStore store freshId = none) :
    ((submit_gate_pass store data freshId tNow cNow uNow).1.code = 201 ↔
      validBody data = true) ∧
    (validBody data = true →
      (submit_gate_pass store data freshId tNow cNow uNow).1 =
        .created freshId ((getField data "pass_type").getD "") ∧
      lookupStore store freshId = none ∧
      (submit_gate_pass store data freshId tNow cNow uNow).2 =
        setStore store freshId (stampSubmission data tNow cNow uNow) ∧
      lookupStore (submit_gate_pass store data freshId tNow cNow uNow).2 freshId =
        some (stampSubmission data tNow cNow uNow) ∧
      getField (stampSubmission data tNow cNow uNow) "status" = some "Pending") ∧
    (validBody data = false →
      (submit_gate_pass store data freshId tNow cNow uNow).1.code = 400 ∧
      (submit_gate_pass store data freshId tNow cNow uNow).2 = store) := by
  refine ⟨?_, ?_, ?_⟩
  · constructor
    · intro hcode
      cases hv : validBody data with
      | true => rfl
      | false =>
        have h400 := (submit_gate_pass_invalid store data freshId tNow cNow uNow hv).1
        rw [hcode] at h400
        cases h400
    · intro hv
      rw [submit_gate_pass_valid store data freshId tNow cNow uNow hv]
      rfl
  · intro hv
    rw [submit_gate_pass_valid store data freshId tNow cNow uNow hv]
    exact ⟨rfl, hFresh, rfl, lookupStore_setStore_self store freshId _,
      stampSubmission_status data tNow cNow uNow⟩
  · exact submit_gate_pass_invalid store data freshId tNow cNow uNow

/-- Witness for C1: the spec's §8 example body submitted into an empty
store yields 201; dropping its first required field yields 400 with the
store unchanged. -/
theorem submit_gate_pass_spec_witness :
    (submit_gate_pass [] demoBody "id1" "t1" "t1" "t1").1.code = 201 ∧
    (submit_gate_pass [] (demoBody.drop 1) "id1" "t1" "t1" "t1").1.code = 400 ∧
    (submit_gate_pass [] (demoBody.drop 1) "id1" "t1" "t1" "t1").2 = [] :=
  ⟨(submit_gate_pass_spec [] demoBody "id1" "t1" "t1" "t1" rfl).1.mpr (by decide),
    ((submit_gate_pass_spec [] (demoBody.drop 1) "id1" "t1" "t1" "t1" rfl).2.2 (by decide)).1,
    ((submit_gate_pass_spec [] (demoBody.drop 1) "id1" "t1" "t1" "t1" rfl).2.2 (by decide)).2⟩

/-- C8: for every valid submission body, the stored record has status
"Pending" and the server-assigned timestamp, created_at and updated_at
values even when the client body supplies its own values for those
fields, while every other client-supplied field (including extras beyond
the ten required ones) is persisted verbatim. -/
theorem submit_gate_pass_server_fields (store : Store) (data : Record)
    (freshId tNow cNow uNow : String) (hv : validBody data = true) :
    (submit_gate_pass store data freshId tNow cNow uNow).2 =
      setStore store freshId (stampSubmission data tNow cNow uNow) ∧
    getField (stampSubmission data tNow cNow uNow) "status" = some "Pending" ∧
    getField (stampSubmission data tNow cNow uNow) "timestamp" = some tNow ∧
    getField (stampSubmission data tNow cNow uNow) "created_at" = some cNow ∧
    getField (stampSubmission data tNow cNow uNow) "updated_at" = some uNow ∧
    (∀ k, k ≠ "timestamp" → k ≠ "status" → k ≠ "created_at" → k ≠ "updated_at" →
      getField (stampSubmission data tNow cNow uNow) k = getField data k) := by
  refine ⟨?_, stampSubmission_status data tNow cNow uNow,
    stampSubmission_timestamp data tNow cNow uNow,
    stampSubmission_created_at data tNow cNow uNow,
    stampSubmission_updated_at data tNow cNow uNow,
    fun k h1 h2 h3 h4 => stampSubmission_other data tNow cNow uNow k h1 h2 h3 h4⟩
  rw [submit_gate_pass_valid store data freshId tNow cNow uNow hv]

/-- Witness for C8: a body that pre-sets `status` to "Approved" and adds
an extra field is stored with status "Pending" and keeps the extra field
verbatim. -/
theorem submit_gate_pass_server_fields_witness :
    getField (stampSubmission dirtyBody "t1" "t2" "t3") "status" = some "Pending" ∧
    getField (stampSubmission dirtyBody "t1" "t2" "t3") "extra_field" =
      getField dirtyBody "extra_field" :=
  ⟨(submit_gate_pass_server_fields [] dirtyBody "id1" "t1" "t2" "t3" (by decide)).2.1,
    (submit_gate_pass_server_fields [] dirtyBody "id1" "t1" "t2" "t3" (by decide)).2.2.2.2.2
      "extra_field" (by decide) (by decide) (by decide) (by decide)⟩

/-! ## `update_gate_pass` lemmas -/

theorem update_gate_pass_approved (store : Store) (gatePassId : String) (data : Record)
    (now nowResp : String) (r : Record) (hr : lookupStore store gatePassId = some r)
    (hst : getField data "status" = some "Approved") :
    update_gate_pass store gatePassId data now nowResp =
      (.ok "Gate Pass Approved" gatePassId nowResp,
        setStore store gatePassId
          (applyUpdate r [("status", "Approved"), ("updated_at", now)])) := by
  unfold update_gate_pass
  rw [hst, hr]
  simp

theorem update_gate_pass_rejected (store : Store) (gatePassId : String) (data : Record)
    (now nowResp : String) (r : Record) (hr : lookupStore store gatePassId = some r)
    (hst : getField data "status" = some "Rejected") :
    update_gate_pass store gatePassId data now nowResp =
      (.ok "Gate Pass Rejected" gatePassId nowResp,
        setStore store gatePassId
          (applyUpdate r [("status", "Rejected"), ("updated_at", now),
            ("rejection_reason", (getField data "reason").getD "")])) := by
  unfold update_gate_pass
  rw [hst, hr]
  simp

theorem applyUpdate_two (r : Record) (k1 v1 k2 v2 : String) :
    applyUpdate r [(k1, v1), (k2, v2)] = setField (setField r k1 v1) k2 v2 := rfl

theorem applyUpdate_three (r : Record) (k1 v1 k2 v2 k3 v3 : String) :
    applyUpdate r [(k1, v1), (k2, v2), (k3, v3)] =
      setField (setField (setField r k1 v1) k2 v2) k3 v3 := rfl

/-- C2: `update_gate_pass` returns 400 when the supplied status is not
"Approved" or "Rejected", before and regardless of any store lookup;
returns 404 when the status is valid but the id names no record; and in
both failure cases returns the store unchanged. -/
theorem update_gate_pass_failure_cases (store : Store) (gatePassId : String)
    (data : Record) (now nowResp : String) :
    (¬(getField data "status" = some "Approved" ∨
        getField data "status" = some "Rejected") →
      update_gate_pass store gatePassId data now nowResp = (.invalidStatus, store) ∧
      (update_gate_pass store gatePassId data now nowResp).1.code = 400) ∧
    ((getField data "status" = some "Approved" ∨
        getField data "status" = some "Rejected") →
      lookupStore store gatePassId = none →
      update_gate_pass store gatePassId data now nowResp = (.notFound, store) ∧
      (update_gate_pass store gatePassId data now nowResp).1.code = 404) := by
  constructor
  · intro hst
    have : update_gate_pass store gatePassId data now nowResp = (.invalidStatus, store) := by
      unfold update_gate_pass
      rw [if_neg hst]
    exact ⟨this, by rw [this]; rfl⟩
  · intro hst hnone
    have : update_gate_pass store gatePassId data now nowResp = (.notFound, store) := by
      unfold update_gate_pass
      rw [if_pos hst, hnone]
    exact ⟨this, by rw [this]; rfl⟩

/-- Witness for C2: an unknown status on an existing record yields 400
leaving the store unchanged; a valid status on an unknown id yields 404
leaving the store unchanged. -/
theorem update_gate_pass_failure_cases_witness :
    update_gate_pass [("a", demoBody)] "a" [("status", "Weird")] "t" "t" =
      (.invalidStatus, [("a", demoBody)]) ∧
    update_gate_pass [("a", demoBody)] "zzz" [("status", "Approved")] "t" "t" =
      (.notFound, [("a", demoBody)]) :=
  ⟨((update_gate_pass_failure_cases [("a", demoBody)] "a" [("status", "Weird")] "t" "t").1
      (by decide)).1,
    ((update_gate_pass_failure_cases [("a", demoBody)] "zzz" [("status", "Approved")] "t" "t").2
      (by decide) (by decide)).1⟩

/-- C3: on an existing record, a successful update to "Rejected" persists
`rejection_reason` equal to the supplied reason (empty string when none
is supplied); a successful update to "Approved" never writes
`rejection_reason` (it is left exactly as it was); both refresh
`updated_at`. -/
theorem update_gate_pass_rejection_reason (store : Store) (gatePassId : String)
    (data : Record) (now nowResp : String) (r : Record)
    (hr : lookupStore store gatePassId = some r) :
    (getField data "status" = some "Rejected" →
      ∀ r2, lookupStore (update_gate_pass store gatePassId data now nowResp).2 gatePassId =
          some r2 →
        getField r2 "rejection_reason" = some ((getField data "reason").getD "") ∧
        getField r2 "updated_at" = some now) ∧
    (getField data "status" = some "Approved" →
      ∀ r2, lookupStore (update_gate_pass store gatePassId data now nowResp).2 gatePassId =
          some r2 →
        getField r2 "rejection_reason" = getField r "rejection_reason" ∧
        getField r2 "updated_at" = some now) ∧
    ((getField data "status" = some "Approved" ∨ getField data "status" = some "Rejected") →
      (lookupStore (update_gate_pass store gatePassId data now nowResp).2 gatePassId).isSome =
        true) := by
  refine ⟨?_, ?_, ?_⟩
  · intro hst r2 h2
    rw [update_gate_pass_rejected store gatePassId data now nowResp r hr hst] at h2
    rw [lookupStore_setStore_self] at h2
    cases Option.some.inj h2
    rw [applyUpdate_three]
    constructor
    · rw [getField_setField_self]
    · rw [getField_setField_ne _ _ _ _ (by decide), getField_setField_self]
  · intro hst r2 h2
    rw [update_gate_pass_approved store gatePassId data now nowResp r hr hst] at h2
    rw [lookupStore_setStore_self] at h2
    cases Option.some.inj h2
    rw [applyUpdate_two]
    constructor
    · rw [getField_setField_ne _ _ _ _ (by decide), getField_setField_ne _ _ _ _ (by decide)]
    · rw [getField_setField_self]
  · rintro (hst | hst)
    · rw [update_gate_pass_approved store gatePassId data now nowResp r hr hst,
        lookupStore_setStore_self]
      rfl
    · rw [update_gate_pass_rejected store gatePassId data now nowResp r hr hst,
        lookupStore_setStore_self]
      rfl

/-- Witness for C3: rejecting the stored demo record with no supplied
reason persists an empty rejection_reason and the new updated_at;
approving it leaves rejection_reason absent. -/
theorem update_gate_pass_rejection_reason_witness :
    (getField ((lookupStore
        (update_gate_pass [("a", demoBody)] "a" [("status", "Rejected")] "t9" "t9").2
        "a").getD []) "rejection_reason" = some "" ∧
      getField ((lookupStore
        (update_gate_pass [("a", demoBody)] "a" [("status", "Rejected")] "t9" "t9").2
        "a").getD []) "updated_at" = some "t9") ∧
    getField ((lookupStore
        (update_gate_pass [("a", demoBody)] "a" [("status", "Approved")] "t9" "t9").2
        "a").getD []) "rejection_reason" = getField demoBody "rejection_reason" :=
  ⟨(update_gate_pass_rejection_reason [("a", demoBody)] "a" [("status", "Rejected")]
      "t9" "t9" demoBody (by decide)).1 (by decide) _ (by decide),
    ((update_gate_pass_rejection_reason [("a", demoBody)] "a" [("status", "Approved")]
      "t9" "t9" demoBody (by decide)).2.1 (by decide) _ (by decide)).1⟩

/-- C9 (frame): a successful `update_gate_pass` changes no stored field
of the record other than `status`, `updated_at` and — only when the new
status is "Rejected" — `rejection_reason`. -/
theorem update_gate_pass_frame (store : Store) (gatePassId : String) (data : Record)
    (now nowResp : String) (r : Record) (k : String)
    (hr : lookupStore store gatePassId = some r)
    (hst : getField data "status" = some "Approved" ∨
      getField data "status" = some "Rejected")
    (hk1 : k ≠ "status") (hk2 : k ≠ "updated_at")
    (hk3 : getField data "status" = some "Rejected" → k ≠ "rejection_reason") :
    ∀ r2, lookupStore (update_gate_pass store gatePassId data now nowResp).2 gatePassId =
        some r2 →
      getField r2 k = getField r k := by
  intro r2 h2
  rcases hst with hst | hst
  · rw [update_gate_pass_approved store gatePassId data now nowResp r hr hst] at h2
    rw [lookupStore_setStore_self] at h2
    cases Option.some.inj h2
    rw [applyUpdate_two, getField_setField_ne _ _ _ _ hk2, getField_setField_ne _ _ _ _ hk1]
  · rw [update_gate_pass_rejected store gatePassId data now nowResp r hr hst] at h2
    rw [lookupStore_setStore_self] at h2
    cases Option.some.inj h2
    rw [applyUpdate_three, getField_setField_ne _ _ _ _ (hk3 hst),
      getField_setField_ne _ _ _ _ hk2, getField_setField_ne _ _ _ _ hk1]

/-- Witness for C9: approving the stored demo record leaves its
`prn_number` untouched. -/
theorem update_gate_pass_frame_witness :
    getField ((lookupStore
        (update_gate_pass [("a", demoBody)] "a" [("status", "Approved")] "t9" "t9").2
        "a").getD []) "prn_number" = getField demoBody "prn_number" :=
  update_gate_pass_frame [("a", demoBody)] "a" [("status", "Approved")] "t9" "t9"
    demoBody "prn_number" (by decide) (Or.inl (by decide)) (by decide) (by decide)
    (fun h => absurd h (by decide)) _ (by decide)

/-! ## `check_authentication` lemmas -/

/-- Counterexample to C5 as stated: the header
`"Bearer default_secret_token extra"` is not of the exact form
`"Bearer <secret>"`, yet `check_authentication` lets the request
through, because the code compares only `auth_header.split(' ')[1]`
against the secret. -/
theorem check_authentication_literal_header_cex :
    check_authentication "POST" (some "Bearer default_secret_token extra") = .allow ∧
    "Bearer default_secret_token extra" ≠ "Bearer " ++ SECRET_TOKEN := by
  constructor
  · decide
  · decide

/-- C5 (amended): a non-OPTIONS request is served exactly when its
Authorization header starts with "Bearer " and its second
space-separated component equals the shared secret; any other
non-OPTIONS request receives 401 with the store untouched; OPTIONS
requests bypass the check and always succeed with 200. -/
theorem check_authentication_spec (method : String) (authHeader : Option String)
    (store : Store) (gatePassId : String) (data : Record) (now nowResp : String) :
    (check_authentication method authHeader = .allow ↔
      (method ≠ "OPTIONS" ∧ ∃ h, authHeader = some h ∧
        pyStartsWith h "Bearer " = true ∧ bearerToken h = SECRET_TOKEN)) ∧
    (method = "OPTIONS" →
      check_authentication method authHeader = .optionsOk ∧
      update_gate_pass_route method authHeader store gatePassId data now nowResp =
        (200, store)) ∧
    (check_authentication method authHeader ≠ .allow → method ≠ "OPTIONS" →
      update_gate_pass_route method authHeader store gatePassId data now nowResp =
        (401, store)) := by
  refine ⟨⟨?_, ?_⟩, ?_, ?_⟩
  · intro hallow
    unfold check_authentication at hallow
    by_cases hm : method = "OPTIONS"
    · rw [if_pos hm] at hallow
      cases hallow
    · refine ⟨hm, ?_⟩
      rw [if_neg hm] at hallow
      cases authHeader with
      | none => cases hallow
      | some h =>
        refine ⟨h, rfl, ?_, ?_⟩ <;>
          by_cases hb : pyStartsWith h "Bearer " = true <;>
            by_cases ht : bearerToken h = SECRET_TOKEN <;>
              simp [hb, ht] at hallow ⊢
  · rintro ⟨hm, h, rfl, hb, ht⟩
    unfold check_authentication
    rw [if_neg hm]
    simp [hb, ht]
  · intro hm
    have hc : check_authentication method authHeader = .optionsOk := by
      unfold check_authentication
      rw [if_pos hm]
    exact ⟨hc, by unfold update_gate_pass_route; rw [hc]⟩
  · intro hna hm
    unfold update_gate_pass_route
    cases hc : check_authentication method authHeader with
    | allow => exact absurd hc hna
    | optionsOk =>
      exfalso
      unfold check_authentication at hc
      rw [if_neg hm] at hc
      cases authHeader with
      | none => cases hc
      | some h =>
        by_cases hb : pyStartsWith h "Bearer " = true <;>
          by_cases ht : bearerToken h = SECRET_TOKEN <;>
            simp [hb, ht] at hc
    | invalidHeader rh => rfl
    | wrongToken rt et => rfl

/-- Witness for C5 (amended): a wrong bearer token on the update route is
refused with 401 and the store is unchanged; an OPTIONS request sails
through with 200. -/
theorem check_authentication_spec_witness :
    update_gate_pass_route "POST" (some "Bearer wrong") [("a", demoBody)] "a"
        [("status", "Approved")] "t" "t" = (401, [("a", demoBody)]) ∧
    update_gate_pass_route "OPTIONS" none [("a", demoBody)] "a"
        [("status", "Approved")] "t" "t" = (200, [("a", demoBody)]) :=
  ⟨(check_authentication_spec "POST" (some "Bearer wrong") [("a", demoBody)] "a"
      [("status", "Approved")] "t" "t").2.2 (by decide) (by decide),
    ((check_authentication_spec "OPTIONS" none [("a", demoBody)] "a"
      [("status", "Approved")] "t" "t").2.1 rfl).2⟩

/-- C10: when the Authorization header starts with "Bearer " but its
token differs from the shared secret, the 401 outcome discloses the
expected secret itself in the `expected_token` field, alongside the
received token. -/
theorem check_authentication_token_disclosure (method h : String)
    (hm : method ≠ "OPTIONS") (hb : pyStartsWith h "Bearer " = true)
    (ht : bearerToken h ≠ SECRET_TOKEN) :
    check_authentication method (some h) =
      .wrongToken (bearerToken h) SECRET_TOKEN := by
  unfold check_authentication
  rw [if_neg hm]
  simp [hb, ht]

/-- Witness for C10: the header "Bearer wrong" is refused with a payload
echoing the received token "wrong" and the expected secret. -/
theorem check_authentication_token_disclosure_witness :
    check_authentication "GET" (some "Bearer wrong") =
      .wrongToken (bearerToken "Bearer wrong") SECRET_TOKEN :=
  check_authentication_token_disclosure "GET" "Bearer wrong"
    (by decide) (by decide) (by decide)

/-! ## `get_statistics` lemmas -/

theorem bumpBucket_all (b : StatBucket) (st : String) :
    (bumpBucket b st).all = b.all + 1 := by
  unfold bumpBucket
  split_ifs <;> rfl

theorem bucketOk_bump (b : StatBucket) (st : String) (h : bucketOk b) :
    bucketOk (bumpBucket b st) := by
  obtain ⟨h1, h2, h3⟩ := h
  unfold bumpBucket bucketOk
  split_ifs <;> simp <;> omega

theorem statsOk_count (s : Stats) (r : Record) (h : statsOk s) :
    statsOk (countRecord s r) := by
  obtain ⟨hsum, ht, hl, hv⟩ := h
  unfold countRecord
  dsimp only
  split_ifs with h1 h2
  · exact ⟨by simp [bumpBucket_all]; omega, bucketOk_bump _ _ ht, bucketOk_bump _ _ hl, hv⟩
  · exact ⟨by simp [bumpBucket_all]; omega, bucketOk_bump _ _ ht, hl, bucketOk_bump _ _ hv⟩
  · exact ⟨hsum, ht, hl, hv⟩

theorem statsOk_foldl (l : List Record) (s : Stats) (h : statsOk s) :
    statsOk (l.foldl countRecord s) := by
  induction l generalizing s with
  | nil => exact h
  | cons r t ih => exact ih _ (statsOk_count s r h)

/-- C6: for every multiset of stored records, `get_statistics` yields a
total `all` equal to the sum of the local and leave `all` counts, and in
each of the three buckets every status sub-count is at most that
bucket's `all`. -/
theorem get_statistics_spec (records : List Record) :
    (get_statistics records).total.all =
      (get_statistics records).localB.all + (get_statistics records).leaveB.all ∧
    bucketOk (get_statistics records).total ∧
    bucketOk (get_statistics records).localB ∧
    bucketOk (get_statistics records).leaveB :=
  statsOk_foldl records initStats ⟨rfl, ⟨Nat.le_refl 0, Nat.le_refl 0, Nat.le_refl 0⟩,
    ⟨Nat.le_refl 0, Nat.le_refl 0, Nat.le_refl 0⟩, ⟨Nat.le_refl 0, Nat.le_refl 0, Nat.le_refl 0⟩⟩

/-! ## `get_gate_pass_status` lemmas -/

/-- C7: for a non-empty, non-whitespace PRN that matches no stored
record, `get_gate_pass_status` returns 200 with an empty array — never
404. -/
theorem get_gate_pass_status_no_match (store : Store) (prn : String)
    (h1 : isBlank prn = false)
    (h2 : ∀ p ∈ store, getField p.2 "prn_number" ≠ some prn) :
    get_gate_pass_status store prn = .ok [] ∧
    (get_gate_pass_status store prn).code = 200 := by
  have hf : store.filter (fun p => getField p.2 "prn_number" == some prn) = [] := by
    rw [List.filter_eq_nil_iff]
    intro p hp
    simpa using h2 p hp
  have : get_gate_pass_status store prn = .ok [] := by
    unfold get_gate_pass_status
    rw [h1, hf]
    rfl
  exact ⟨this, by rw [this]; rfl⟩

/-- Witness for C7: the PRN "999" matches no record of a store holding
only the demo record (whose PRN is "123"), and the endpoint answers 200
with an empty list. -/
theorem get_gate_pass_status_no_match_witness :
    get_gate_pass_status [("a", demoBody)] "999" = .ok [] ∧
    (get_gate_pass_status [("a", demoBody)] "999").code = 200 :=
  get_gate_pass_status_no_match [("a", demoBody)] "999" (by decide) (by decide)

/-! ## The rejection-reason reachability invariant -/

/-- Counterexample to C4 as stated: after submit, reject, re-approve,
the record is reachable, its status is "Approved", and it still carries
the `rejection_reason` written by the rejection — Firestore `update`
merges fields and the approval branch never clears the old reason. -/
theorem rejection_reason_invariant_cex :
    (lookupStore (runOps rejectThenApproveTrace) "id1").isSome = true ∧
    getField rejectThenApproveRecord "status" = some "Approved" ∧
    getField rejectThenApproveRecord "rejection_reason" = some "r" := by
  refine ⟨by decide, by decide, by decide⟩

theorem reasonInv_step (s : Store) (op : Op) (hop : op.cleanSubmit = true)
    (hs : reasonInv s) : reasonInv (stepOp s op) := by
  cases op with
  | submit data freshId t c u =>
    simp only [Op.cleanSubmit, beq_iff_eq] at hop
    intro id r hr
    by_cases hv : validBody data = true
    · rw [stepOp, congrArg Prod.snd
        (submit_gate_pass_valid s data freshId t c u hv)] at hr
      rcases lookupStore_setStore_cases _ _ _ _ _ hr with ⟨hid, hrec⟩ | hold
      · subst hrec
        constructor
        · intro _
          rw [stampSubmission_other data t c u "rejection_reason"
            (by decide) (by decide) (by decide) (by decide)]
          exact hop
        · intro hst
          rw [stampSubmission_status] at hst
          exact absurd hst (by decide)
      · exact hs id r hold
    · have hv' : validBody data = false := by
        cases hvb : validBody data
        · rfl
        · exact absurd hvb hv
      rw [stepOp, (submit_gate_pass_invalid s data freshId t c u hv').2] at hr
      exact hs id r hr
  | update gid data now nowResp =>
    intro id r hr
    by_cases hst : getField data "status" = some "Approved" ∨
        getField data "status" = some "Rejected"
    · cases hlk : lookupStore s gid with
      | none =>
        rw [stepOp, congrArg Prod.snd
          ((update_gate_pass_failure_cases s gid data now nowResp).2 hst hlk).1] at hr
        exact hs id r hr
      | some r0 =>
        rcases hst with hA | hR
        · rw [stepOp, congrArg Prod.snd
            (update_gate_pass_approved s gid data now nowResp r0 hlk hA)] at hr
          rcases lookupStore_setStore_cases _ _ _ _ _ hr with ⟨hid, hrec⟩ | hold
          · subst hrec
            have hcomp : getField (applyUpdate r0 [("status", "Approved"), ("updated_at", now)])
                "status" = some "Approved" := by
              rw [applyUpdate_two, getField_setField_ne _ _ _ _ (by decide),
                getField_setField_self]
            constructor
            · intro hst'
              rw [hcomp] at hst'
              exact absurd hst' (by decide)
            · intro hst'
              rw [hcomp] at hst'
              exact absurd hst' (by decide)
          · exact hs id r hold
        · rw [stepOp, congrArg Prod.snd
            (update_gate_pass_rejected s gid data now nowResp r0 hlk hR)] at hr
          rcases lookupStore_setStore_cases _ _ _ _ _ hr with ⟨hid, hrec⟩ | hold
          · subst hrec
            have hcomp : getField (applyUpdate r0 [("status", "Rejected"), ("updated_at", now),
                ("rejection_reason", (getField data "reason").getD "")]) "status" =
                  some "Rejected" := by
              rw [applyUpdate_three, getField_setField_ne _ _ _ _ (by decide),
                getField_setField_ne _ _ _ _ (by decide), getField_setField_self]
            constructor
            · intro hst'
              rw [hcomp] at hst'
              exact absurd hst' (by decide)
            · intro _
              rw [applyUpdate_three, getField_setField_self]
              rfl
          · exact hs id r hold
    · rw [stepOp, congrArg Prod.snd
        ((update_gate_pass_failure_cases s gid data now nowResp).1 hst).1] at hr
      exact hs id r hr

theorem reasonInv_foldl (l : List Op) (s : Store)
    (hclean : ∀ op ∈ l, op.cleanSubmit = true) (hs : reasonInv s) :
    reasonInv (l.foldl stepOp s) := by
  induction l generalizing s with
  | nil => exact hs
  | cons op t ih =>
    exact ih (stepOp s op) (fun o ho => hclean o (List.mem_cons_of_mem _ ho))
      (reasonInv_step s op (hclean op (List.mem_cons_self _ _)) hs)

/-- C4 (amended): over every sequence of submit/update operations whose
submission bodies do not themselves contain a `rejection_reason` field,
every reachable record with status "Pending" carries no
`rejection_reason` and every reachable record with status "Rejected"
always carries one; an "Approved" record may retain the
`rejection_reason` of an earlier rejection (see the counterexample). -/
theorem rejection_reason_invariant_amended (ops : List Op)
    (hclean : ∀ op ∈ ops, op.cleanSubmit = true) (id : String) (r : Record)
    (hr : lookupStore (runOps ops) id = some r) :
    (getField r "status" = some "Pending" → getField r "rejection_reason" = none) ∧
    (getField r "status" = some "Rejected" → (getField r "rejection_reason").isSome = true) := by
  refine reasonInv_foldl ops [] hclean ?_ id r hr
  intro id' r' h'
  exact absurd h' (by simp [lookupStore, lookupA])

/-- Witness for C4 (amended): after a clean submit-then-reject trace the
stored record is Rejected and does carry a rejection_reason. -/
theorem rejection_reason_invariant_amended_witness :
    (getField cleanTraceRecord "rejection_reason").isSome = true :=
  (rejection_reason_invariant_amended cleanTrace (by decide) "id1" cleanTraceRecord
    (by decide)).2 (by decide)

end GatePass
